import Mathlib

/-!
# Verification of the fernlabs-api plan-workflow state machine

Shallow embedding of the plan-workflow core of `fernlabs_api`:
the plan text parser and connection parser (`workflow/base.py`), the
Mermaid renderers, the persistence operations, and the stage functions
`CreatePlan`, `AssessPlan`, `WaitForUserInput`, `EditPlan`
(`workflow/nodes/*.py`) and `run_execute_plan_step`
(`workflow/nodes/execute_plan_step.py`), together with the orchestrator
entry point `resume_workflow` (`workflow/workflow_agent.py`).

Python strings are modelled as Lean `String`; fallible Python code
(code that can raise `IndexError`, `ValueError`, or a pydantic
`ValidationError`) is modelled with `Except String`; exceptions that
propagate out of a stage after database commits carry the committed
database, modelled with `Except (String × Db)`.  The relational store
is modelled as lists of rows; `commit` is implicit (every helper
returns the updated store, matching the per-helper `db.commit()` calls
in the source).
-/

namespace Fernlabs

/-! ## Python string primitives -/

/-- Python whitespace for `str.strip` / `str.split()`: space, tab, newline,
carriage return, vertical tab, form feed. -/
def pySpaceChar (c : Char) : Bool :=
  c == ' ' || c == '\t' || c == '\n' || c == '\r' ||
    c == Char.ofNat 11 || c == Char.ofNat 12

/-- Python `str.strip()`. -/
def pyStrip (s : String) : String :=
  String.mk (((s.toList.dropWhile pySpaceChar).reverse.dropWhile pySpaceChar).reverse)

/-- Python `str.lower()` (ASCII, which is all the keyword matching needs). -/
def pyLower (s : String) : String := String.mk (s.toList.map Char.toLower)

/-- Python `str.upper()` (ASCII). -/
def pyUpper (s : String) : String := String.mk (s.toList.map Char.toUpper)

/-- Python `s.startswith(pre)`. -/
def pyStartsWith (s pre : String) : Bool := pre.toList.isPrefixOf s.toList

/-- Python `s.endswith(suf)`. -/
def pyEndsWith (s suf : String) : Bool := suf.toList.reverse.isPrefixOf s.toList.reverse

/-- Fuel-driven worker for `pySplit`; the fuel (chars remaining + 1)
only guarantees structural termination. -/
def pySplitAux (sep : List Char) : List Char → List Char → Nat → List (List Char)
  | l, cur, 0 => [cur.reverse ++ l]
  | [], cur, _ + 1 => [cur.reverse]
  | c :: cs, cur, fuel + 1 =>
    if sep.isPrefixOf (c :: cs) then
      cur.reverse :: pySplitAux sep (List.drop sep.length (c :: cs)) [] fuel
    else
      pySplitAux sep cs (c :: cur) fuel

/-- Python `s.split(sep)` for a non-empty separator: non-overlapping,
left-to-right, keeping empty pieces. -/
def pySplit (s sep : String) : List String :=
  if sep.toList.isEmpty then [s]
  else (pySplitAux sep.toList s.toList [] (s.toList.length + 1)).map String.mk

/-- Fuel-driven worker for `pyReplace`. -/
def pyReplaceAux (pattern repl : List Char) : List Char → Nat → List Char
  | l, 0 => l
  | [], _ + 1 => []
  | c :: cs, fuel + 1 =>
    if pattern.isPrefixOf (c :: cs) then
      repl ++ pyReplaceAux pattern repl (List.drop pattern.length (c :: cs)) fuel
    else
      c :: pyReplaceAux pattern repl cs fuel

/-- Python `s.replace(pattern, repl)` for a non-empty pattern:
non-overlapping, left-to-right. -/
def pyReplace (s pattern repl : String) : String :=
  String.mk (pyReplaceAux pattern.toList repl.toList s.toList s.toList.length)

/-- Python `sep.join(pieces)`. -/
def strJoin (sep : String) : List String → String
  | [] => ""
  | [x] => x
  | x :: xs => x ++ sep ++ strJoin sep xs

/-- Decimal rendering of a natural number (`f"{n}"`), fuel-driven. -/
def natDigitsAux : Nat → Nat → List Char
  | 0, _ => []
  | fuel + 1, n =>
    if n < 10 then [Char.ofNat (48 + n)]
    else natDigitsAux fuel (n / 10) ++ [Char.ofNat (48 + n % 10)]

def natToStr (n : Nat) : String := String.mk (natDigitsAux (n + 1) n)

/-- Contiguous-sublist test used to model Python substring containment. -/
def listSubOf (needle : List Char) : List Char → Bool
  | [] => needle.isPrefixOf []
  | c :: cs => needle.isPrefixOf (c :: cs) || listSubOf needle cs

/-- Python `needle in hay` substring test. -/
def substrOf (needle hay : String) : Bool :=
  listSubOf needle.toList hay.toList

/-- Python `s[:n]` slice of a string. -/
def pyTake (n : Nat) (s : String) : String := String.mk (s.toList.take n)

/-- Python `str.split()` with no separator: split on whitespace runs,
dropping empty pieces. -/
def pySplitWsAux : List Char → List Char → List String
  | [], cur => if cur.isEmpty then [] else [String.mk cur.reverse]
  | c :: cs, cur =>
    if pySpaceChar c then
      if cur.isEmpty then pySplitWsAux cs [] else String.mk cur.reverse :: pySplitWsAux cs []
    else pySplitWsAux cs (c :: cur)

def pySplitWs (s : String) : List String := pySplitWsAux s.toList []

/-- Python `str.isupper()`: at least one cased character and every cased
character uppercase (cased = ASCII letter in this embedding). -/
def pyIsUpper (s : String) : Bool :=
  s.toList.any (fun c => c.isAlpha) && s.toList.all (fun c => !c.isAlpha || c.isUpper)

/-- Python `str.title()` as used for `msg["role"].title()`. -/
def pyTitleAux : List Char → Bool → List Char
  | [], _ => []
  | c :: cs, prevAlpha =>
    (if c.isAlpha then (if prevAlpha then c.toLower else c.toUpper) else c) ::
      pyTitleAux cs c.isAlpha

def pyTitle (s : String) : String := String.mk (pyTitleAux s.toList false)

/-- `html.escape` from the Python standard library (quote=True default). -/
def htmlEscape (s : String) : String :=
  pyReplace (pyReplace (pyReplace (pyReplace (pyReplace s "&" "&amp;")
    "<" "&lt;") ">" "&gt;") "\"" "&quot;") "\x27" "&#x27;"

/-! ## `_parse_plan_into_steps` (workflow/base.py lines 78-114) -/

/-- The mojibake bullet literal `"â€¢"` that appears in the source's
`line.startswith(("-", "â€¢", "*"))` check. -/
def bulletGlyph : String := "â€¢"

/-- The step-start test from `_parse_plan_into_steps`, lines 91-99:

```
line[0].isdigit() and line[1] in [".", ")", " "]
or line.startswith(("-", "â€¢", "*"))
or line.isupper()
or line.endswith(":")
or line.startswith("Phase")
or line.startswith("Step")
```

Python evaluates `line[1]` whenever `line[0].isdigit()` holds, so a
stripped line that is a single digit raises `IndexError`. -/
def isNewStepLine (line : String) : Except String Bool :=
  match line.toList with
  | [] => .ok false
  | c0 :: rest =>
    if c0.isDigit then
      match rest with
      | [] => .error "IndexError: string index out of range"
      | c1 :: _ =>
        .ok ((c1 == '.' || c1 == ')' || c1 == ' ') ||
          (pyStartsWith line "-" || pyStartsWith line bulletGlyph || pyStartsWith line "*" ||
            pyIsUpper line || pyEndsWith line ":" ||
            pyStartsWith line "Phase" || pyStartsWith line "Step"))
    else
      .ok (pyStartsWith line "-" || pyStartsWith line bulletGlyph || pyStartsWith line "*" ||
        pyIsUpper line || pyEndsWith line ":" ||
        pyStartsWith line "Phase" || pyStartsWith line "Step")

/-- Main loop of `_parse_plan_into_steps`: accumulate `current_step`,
flushing it (stripped) whenever a new step starts; flush the last step at
the end. -/
def parsePlanLoop : List String → List String → String → Except String (List String)
  | [], steps, current =>
    .ok (if current ≠ "" then steps ++ [pyStrip current] else steps)
  | l :: ls, steps, current =>
    let line := pyStrip l
    if line == "" then parsePlanLoop ls steps current
    else
      match isNewStepLine line with
      | .error e => .error e
      | .ok true =>
        parsePlanLoop ls (if current ≠ "" then steps ++ [pyStrip current] else steps) line
      | .ok false => parsePlanLoop ls steps (current ++ " " ++ line)

/-- `_parse_plan_into_steps(plan_text)`: split into lines, scan for step
starts, and fall back to blank-line-separated paragraphs when at most one
step was found. -/
def parsePlanIntoSteps (plan_text : String) : Except String (List String) := do
  let steps ← parsePlanLoop (pySplit plan_text "\n") [] ""
  if steps.length ≤ 1 then
    pure (((pySplit plan_text "\n\n").map pyStrip).filter (fun s => s ≠ ""))
  else
    pure steps

/-! ## `_parse_connections_from_plan` (workflow/base.py lines 117-204) -/

/-- A connection record as produced by `_parse_connections_from_plan`
(the Python dict with keys source/target/type/condition/label). -/
structure ConnRec where
  source : Nat
  target : Nat
  type : String
  condition : Option String
  label : Option String
deriving DecidableEq, Repr

def loopKeywords : List String :=
  ["loop back", "loop to", "repeat", "iterate", "while", "for each"]

def condKeywords : List String := ["if", "when", "check", "verify", "validate"]

/-- Keywords of the loop target phrase: the words after `"loop back to"`
(or, failing that, `"loop to"`); empty when neither phrase occurs. -/
def loopTargetKeywords (line_lower : String) : List String :=
  if substrOf "loop back to" line_lower then
    pySplitWs (pyStrip ((pySplit line_lower "loop back to").getD 1 ""))
  else if substrOf "loop to" line_lower then
    pySplitWs (pyStrip ((pySplit line_lower "loop to").getD 1 ""))
  else []

/-- First line index `j ≠ i` whose lowered text contains any of the
target keywords (the `for j, target_line in enumerate(lines)` scan). -/
def findLoopTarget (lines : List String) (i : Nat) (kws : List String) : Option Nat :=
  (List.range lines.length).find? (fun j =>
    j ≠ i && kws.any (fun k => substrOf k (pyLower (lines.getD j ""))))

/-- Connections contributed by line `i` (0-based) of the stripped
non-blank line list: the loop-back cue block followed by the conditional
cue block. -/
def lineConnections (lines : List String) (i : Nat) : List ConnRec :=
  let line_lower := pyLower (lines.getD i "")
  let loopConns :=
    if loopKeywords.any (fun k => substrOf k line_lower) then
      match findLoopTarget lines i (loopTargetKeywords line_lower) with
      | some j => [⟨i + 1, j + 1, "loop_back", some "loop condition", some "Loop back"⟩]
      | none => []
    else []
  let condConns :=
    if condKeywords.any (fun k => substrOf k line_lower) then
      if i + 1 < lines.length then
        ⟨i + 1, i + 2, "conditional", some "condition met", some "Yes"⟩ ::
          (if i + 2 < lines.length then
            [⟨i + 1, i + 3, "conditional", some "condition not met", some "No"⟩]
          else [])
      else []
    else []
  loopConns ++ condConns

/-- All cue-derived connections, scanning lines in order. -/
def cueConnections (lines : List String) : List ConnRec :=
  (List.range lines.length).flatMap (fun i => lineConnections lines i)

def defaultConn (i : Nat) : ConnRec := ⟨i, i + 1, "next", none, some "Next"⟩

/-- The trailing `for i in range(1, len(lines))` loop: append a default
`next` edge for every index that has no connection with that source. -/
def fillDefaults : List ConnRec → List Nat → List ConnRec
  | conns, [] => conns
  | conns, i :: is =>
    fillDefaults
      (if conns.any (fun c => c.source == i) then conns else conns ++ [defaultConn i])
      is

/-- The stripped non-blank line list the connection parser indexes
(1-based) against. -/
def planLines (plan_text : String) : List String :=
  ((pySplit plan_text "\n").map pyStrip).filter (fun s => s ≠ "")

/-- `_parse_connections_from_plan(plan_text)`. -/
def parseConnectionsFromPlan (plan_text : String) : List ConnRec :=
  let lines := planLines plan_text
  fillDefaults (cueConnections lines) (List.range' 1 (lines.length - 1))

/-! ## `_generate_plan_mermaid_chart_with_connections` (base.py lines 207-243) -/

/-- 1-based enumeration, Python `enumerate(xs, 1)`. -/
def enumFrom (n : Nat) : List α → List (Nat × α)
  | [] => []
  | a :: as => (n, a) :: enumFrom (n + 1) as

/-- `_generate_plan_mermaid_chart_with_connections(plan_steps, connections)`:
total; zero steps yield the placeholder chart. -/
def generatePlanMermaidChartWithConnections
    (plan_steps : List String) (connections : List ConnRec) : String :=
  if plan_steps.isEmpty then "flowchart TD\n    A[No Plan Available]"
  else
    let nodeLines := (enumFrom 1 plan_steps).map (fun p =>
      let label := if p.2.length > 50 then pyTake 50 p.2 ++ "..." else p.2
      let label := pyReplace (pyReplace label "\"" "\\\"") "\x27" "\\\x27"
      "    S" ++ natToStr p.1 ++ "[\"" ++ label ++ "\"]")
    let edgeLines := connections.map (fun conn =>
      if conn.type == "loop_back" then
        "    S" ++ natToStr conn.source ++ " -.-> S" ++ natToStr conn.target ++
          " : " ++ conn.label.getD "Loop"
      else if conn.type == "conditional" then
        "    S" ++ natToStr conn.source ++ " -->|" ++ conn.label.getD "Condition" ++
          "| S" ++ natToStr conn.target
      else
        "    S" ++ natToStr conn.source ++ " --> S" ++ natToStr conn.target)
    strJoin "\n" ("flowchart TD" :: (nodeLines ++ edgeLines))

/-! ## `_generate_plan_mermaid_chart` (base.py lines 332-388) -/

/-- Digit list to the number it denotes (`int(m.group(1))`). -/
def natOfDigits (ds : List Char) : Nat :=
  ds.foldl (fun n c => 10 * n + (c.toNat - 48)) 0

/-- Matcher for `STEP_RE = ^\s*(\d+)\.\s*([^:]+?)(?:\s*:\s*(.*))?\s*$`,
returning `(int(group(1)), group(2).strip(), (group(3) or "").strip())`
exactly when the anchored regex matches the line.  The lazy title group
together with the anchors makes the match split at the first colon:
group 2 is the (non-empty, colon-free) text between the dot and the
first colon (or the line end), group 3 the text after the first colon. -/
def matchStepRe (line : String) : Option (Nat × String × String) :=
  let cs := line.toList.dropWhile pySpaceChar
  let digits := cs.takeWhile Char.isDigit
  let cs := cs.dropWhile Char.isDigit
  if digits.isEmpty then none
  else
    match cs with
    | '.' :: rest =>
      let before := rest.takeWhile (fun c => c ≠ ':')
      let after := rest.dropWhile (fun c => c ≠ ':')
      match after with
      | [] =>
        if rest.isEmpty then none
        else some (natOfDigits digits, pyStrip (String.mk rest), "")
      | _ :: descCs =>
        if before.isEmpty then none
        else some (natOfDigits digits, pyStrip (String.mk before), pyStrip (String.mk descCs))
    | _ => none

/-- Stable insertion preserving original order among equal keys, modelling
Python's stable `steps.sort(key=lambda x: x[0])`. -/
def insertByNum (x : Nat × String × String) :
    List (Nat × String × String) → List (Nat × String × String)
  | [] => [x]
  | y :: ys => if x.1 < y.1 then x :: y :: ys else y :: insertByNum x ys

def sortByNum (l : List (Nat × String × String)) : List (Nat × String × String) :=
  l.foldl (fun acc x => insertByNum x acc) []

/-- `_generate_plan_mermaid_chart(plan_steps)`: parse `'1. Title: desc'`
lines, raise `ValueError` when none parse, otherwise build the chart. -/
def generatePlanMermaidChart (plan_steps : List String) : Except String String :=
  let steps := plan_steps.foldl (fun acc l =>
    let line := pyStrip l
    if line == "" || pyStartsWith line "#" then acc
    else
      match matchStepRe line with
      | none => acc
      | some (n, title, desc) => acc ++ [(n, htmlEscape title, htmlEscape desc)]) []
  if steps.isEmpty then
    .error "No steps parsed. Make sure lines look like \x271. Title: description\x27."
  else
    let sorted := sortByNum steps
    let node_lines := (enumFrom 1 sorted).map (fun p =>
      let label := if p.2.2.2 == "" then p.2.2.1
        else p.2.2.1 ++ "<br/>" ++ pyTake 20 p.2.2.2 ++ "..."
      "    S" ++ natToStr p.1 ++ "[\"" ++ label ++ "\"]:::big")
    let edge_lines := ((enumFrom 1 sorted).filter (fun p => p.1 > 1)).map (fun p =>
      "    S" ++ natToStr (p.1 - 1) ++ " --> S" ++ natToStr p.1)
    .ok (strJoin "\n"
      (("flowchart TD" :: node_lines) ++ edge_lines ++ ["classDef big font-size:18px;"]))

/-! ## The relational store (db/model.py rows used by the workflow) -/

/-- A `Plan` row: `id` models the `uuid4` primary key, `step_id` is the
1-based dense index. -/
structure PlanRow where
  id : Nat
  user_id : Nat
  project_id : Nat
  step_id : Nat
  text : String
deriving DecidableEq, Repr

/-- A `PlanConnection` row; `source_step_id`/`target_step_id` reference
`PlanRow.id` values. -/
structure PlanConnRow where
  project_id : Nat
  source_step_id : Nat
  target_step_id : Nat
  connection_type : String
  condition : Option String
  label : Option String
deriving DecidableEq, Repr

/-- An `AgentCall` audit row. -/
structure AgentCallRow where
  project_id : Nat
  prompt : String
  response : String
deriving DecidableEq, Repr

/-- The `Project` columns the workflow touches. -/
structure ProjectRow where
  id : Nat
  status : String
  mermaid_chart : Option String
deriving DecidableEq, Repr

/-- The store: one list of rows per table, in insertion order (SQLAlchemy
queries without `order_by` return insertion order here). -/
structure Db where
  plans : List PlanRow
  planConnections : List PlanConnRow
  agentCalls : List AgentCallRow
  projects : List ProjectRow
deriving DecidableEq, Repr

/-- `_update_project_status`: set the status of the first project row
with the given id (no-op when the project does not exist). -/
def setStatusFirst : List ProjectRow → Nat → String → List ProjectRow
  | [], _, _ => []
  | r :: rs, p, s =>
    if r.id == p then { r with status := s } :: rs else r :: setStatusFirst rs p s

def updateProjectStatus (db : Db) (project_id : Nat) (status : String) : Db :=
  { db with projects := setStatusFirst db.projects project_id status }

/-- Status of the first project row with the given id. -/
def getProjectStatus (db : Db) (project_id : Nat) : Option String :=
  (db.projects.find? (fun r => r.id == project_id)).map (fun r => r.status)

/-- `_save_mermaid_chart_to_project`. -/
def setChartFirst : List ProjectRow → Nat → String → List ProjectRow
  | [], _, _ => []
  | r :: rs, p, c =>
    if r.id == p then { r with mermaid_chart := some c } :: rs
    else r :: setChartFirst rs p c

def saveMermaidChartToProject (db : Db) (project_id : Nat) (chart : String) : Db :=
  { db with projects := setChartFirst db.projects project_id chart }

/-- `_log_agent_call`: append-only audit insert. -/
def logAgentCall (db : Db) (project_id : Nat) (prompt response : String) : Db :=
  { db with agentCalls := db.agentCalls ++ [⟨project_id, prompt, response⟩] }

/-- The `step_id` values stored for a project, in row order. -/
def stepIdsFor (db : Db) (project_id : Nat) : List Nat :=
  (db.plans.filter (fun r => r.project_id == project_id)).map (fun r => r.step_id)

/-- A next-step record returned by `_get_next_execution_steps`. -/
structure NextStep where
  step_id : Nat
  text : String
  connection_type : String
  condition : Option String
  label : Option String
deriving DecidableEq, Repr

/-- `_get_next_execution_steps(db, project_id, current_step_id)`
(base.py lines 290-329). -/
def getNextExecutionSteps (db : Db) (project_id current_step_id : Nat) : List NextStep :=
  match db.plans.find? (fun p => p.project_id == project_id && p.step_id == current_step_id) with
  | none => []
  | some current_plan =>
    let conns := db.planConnections.filter (fun c =>
      c.project_id == project_id && c.source_step_id == current_plan.id)
    conns.filterMap (fun conn =>
      (db.plans.find? (fun p => p.id == conn.target_step_id)).map (fun tp =>
        ⟨tp.step_id, tp.text, conn.connection_type, conn.condition, conn.label⟩))

/-! ## Workflow state and the generative response model (base.py) -/

/-- `PlanResponse`: pydantic model with three required fields. -/
structure PlanResponse where
  plan : String
  connections : List ConnRec
  mermaid_chart : String
deriving DecidableEq, Repr

/-- Pydantic validation of a `PlanResponse` construction: every field is
required; omitting one (or passing `None` where `str` is expected)
raises a `ValidationError`.  `AssessPlan.run` constructs
`PlanResponse(plan=..., mermaid_chart=...)` without `connections`. -/
def PlanResponse.validate (plan : Option String) (connections : Option (List ConnRec))
    (mermaid_chart : Option String) : Except String PlanResponse :=
  match plan, connections, mermaid_chart with
  | some p, some c, some m => .ok ⟨p, c, m⟩
  | _, _, _ => .error "ValidationError: Field required"

/-- `str(plan_response)`: the pydantic one-line repr logged by Create and
Edit.  Only its presence in the audit log matters to the claims. -/
def strOfPlanResponse (pr : PlanResponse) : String :=
  "plan=\x27" ++ pr.plan ++ "\x27 connections=" ++ natToStr pr.connections.length ++
    " mermaid_chart=\x27" ++ pr.mermaid_chart ++ "\x27"

/-- `WorkflowState` (base.py lines 50-66) without the opaque db handle,
which the embedding passes separately. -/
structure WFState where
  user_id : Nat
  project_id : Nat
  chat_history : List (String × String)
  current_plan : Option String
  mermaid_chart : Option String
  plan_needs_improvement : Bool
  followup_question : Option String
  user_response : Option String
  final_plan : Option PlanResponse
deriving DecidableEq, Repr

/-- `"\n".join(f"{msg['role'].title()}: {msg['content']}" ...)`. -/
def chatContext (chat_history : List (String × String)) : String :=
  strJoin "\n" (chat_history.map (fun m => pyTitle m.1 ++ ": " ++ m.2))

/-- The CreatePlan prompt f-string (create_plan.py lines 62-76). -/
def createPrompt (st : WFState) : String :=
  "\n        Based on the following conversation history create a high level project plan:\n\n        Conversation History:\n        " ++
    chatContext st.chat_history ++
    "\n\n        Create a high level plan that outlines the overall flow of the project.\n        Be concise, to the point, and only include the most important steps.\n        Give each step a succinct title formatted as title: description.\n        For example: Load Data: load the data from the csv file.\n\n        Also generate a Mermaid flowchart diagram that visualizes these steps.\n        The diagram should show the sequential flow from start to end.\n        Use the format: flowchart TD with numbered steps and arrows connecting them.\n        "

/-- The AssessPlan prompt f-string (assess_plan.py lines 55-71);
`{ctx.state.current_plan}` renders `None` when the plan is absent. -/
def assessPrompt (st : WFState) : String :=
  "\n        Analyze the following existing plan and conversation history to identify if a follow-up question is needed:\n\n        Existing Plan:\n        " ++
    (st.current_plan.getD "None") ++
    "\n\n        Conversation History:\n        " ++ chatContext st.chat_history ++
    "\n\n        Based on this analysis, please identify the most important question to ask to improve the plan:\n\n        Focus on asking about high level details that are not covered in the plan. Save\n        implementation details for later.\n\n        If the plan is comprehensive and doesn\x27t need follow-up, respond with \"PLAN_COMPLETE\".\n        Otherwise, return the follow-up question.\n        "

/-- The EditPlan prompt f-string (edit_plan.py lines 61-89), with the
`{ctx.state.user_response or "No specific response provided"}` fallback. -/
def editPrompt (st : WFState) : String :=
  "\n        Review and improve the following existing project plan based on new requirements and user feedback:\n\n        Conversation History:\n        " ++
    chatContext st.chat_history ++
    "\n\n        Original Plan:\n        " ++ (st.current_plan.getD "None") ++
    "\n\n        Follow-up Question Asked:\n        " ++ (st.followup_question.getD "None") ++
    "\n\n        User Response:\n        " ++
    (match st.user_response with
     | some r => if r == "" then "No specific response provided" else r
     | none => "No specific response provided") ++
    "\n\n        Please analyze the existing plan and:\n        1. Identify areas that need improvement or updates based on the user feedback\n        2. Add missing details or phases based on new requirements\n        3. Optimize the workflow structure and flow\n        4. Ensure all current requirements are addressed\n        5. Update timeline estimates if needed\n        6. Maintain the core structure while enhancing clarity and completeness\n        7. Address any gaps or inconsistencies revealed by the follow-up question\n\n        Return an improved version of the plan that builds upon the existing structure.\n        Also generate a Mermaid flowchart diagram that visualizes the improved workflow steps.\n        The diagram should show the sequential flow from start to end.\n        Use the format: flowchart TD with numbered steps and arrows connecting them.\n        "

/-! ## Stage functions (workflow/nodes/*.py)

Each stage takes the store, the state, and — where the stage calls the
generative capability — the outcome of that call as an
`Except String _` (error = the remote call raised).  A stage returns
`Except (String × Db) (Db × WFState × route)`: an exception propagating
out of the stage carries the store as already committed, since every
helper commits immediately. -/

/-- The `End({...})` payload of the pause branch. -/
structure WaitPayload where
  status : String
  followup_question : Option String
  message : String
  workflow_paused : Bool
deriving DecidableEq, Repr

/-- Routing decision of `WaitForUserInput.run`. -/
inductive WaitRoute
  | editPlan
  | endRoute (payload : WaitPayload)
deriving DecidableEq, Repr

/-- Python truthiness of
`ctx.state.user_response and ctx.state.user_response.strip()`. -/
def userResponseTruthy : Option String → Bool
  | none => false
  | some s => if s == "" then false else !(pyStrip s == "")

/-- `WaitForUserInput.run` (wait_for_user_input.py lines 22-58). -/
def waitForUserInput (db : Db) (st : WFState) : Db × WFState × WaitRoute :=
  if userResponseTruthy st.user_response then
    let db := updateProjectStatus db st.project_id "processing"
    let db := logAgentCall db st.project_id
      "WaitForUserInput: User response received"
      ("Proceeding to EditPlan with user response: " ++
        pyTake 100 (st.user_response.getD "") ++ "...")
    (db, st, WaitRoute.editPlan)
  else
    let db := updateProjectStatus db st.project_id "needs_input"
    (db, st, WaitRoute.endRoute
      ⟨"waiting_for_input", st.followup_question,
        "Please provide additional information to continue", true⟩)

/-- Routing decision of `AssessPlan.run`. -/
inductive AssessRoute
  | waitForUserInput
  | endRoute (payload : PlanResponse)
deriving DecidableEq, Repr

/-- `AssessPlan.run` (assess_plan.py lines 25-94); `gen` is the outcome
of `agent.run(prompt)` (its `.output` string on success).  The
`PLAN_COMPLETE` branch constructs
`PlanResponse(plan=..., mermaid_chart=...)` with no `connections`
argument, which pydantic rejects. -/
def assessPlan (db : Db) (st : WFState) (gen : Except String String) :
    Except (String × Db) (Db × WFState × AssessRoute) :=
  let prompt := assessPrompt st
  match gen with
  | .error e => .error (e, db)
  | .ok assessment =>
    let db := logAgentCall db st.project_id prompt assessment
    if substrOf "PLAN_COMPLETE" (pyUpper assessment) then
      match PlanResponse.validate st.current_plan none st.mermaid_chart with
      | .error e => .error (e, db)
      | .ok fp =>
        let st := { st with final_plan := some fp }
        let db := updateProjectStatus db st.project_id "completed"
        .ok (db, st, AssessRoute.endRoute fp)
    else
      .ok (db,
        { st with plan_needs_improvement := true, followup_question := some assessment },
        AssessRoute.waitForUserInput)

/-- Rows inserted by the `for step_id, step_text in enumerate(plan_steps, 1)`
loops of Create and Edit; the `uuid4` primary key is opaque to every
claim and is modelled as 0. -/
def insertRows (user_id project_id : Nat) (steps : List String) : List PlanRow :=
  (enumFrom 1 steps).map (fun p => ⟨0, user_id, project_id, p.1, p.2⟩)

/-- `CreatePlan.run` (create_plan.py lines 30-112): set status loading,
call the generative capability, parse, render, insert steps 1..N
(without deleting pre-existing rows), save the chart, log the call,
route to AssessPlan. -/
def createPlanRun (db : Db) (st : WFState) (gen : Except String PlanResponse) :
    Except (String × Db) (Db × WFState × String) :=
  let db := updateProjectStatus db st.project_id "loading"
  let prompt := createPrompt st
  match gen with
  | .error e => .error (e, db)
  | .ok plan_response =>
    let st := { st with current_plan := some plan_response.plan }
    match parsePlanIntoSteps plan_response.plan with
    | .error e => .error (e, db)
    | .ok plan_steps =>
      match generatePlanMermaidChart plan_steps with
      | .error e => .error (e, db)
      | .ok chart =>
        let st := { st with mermaid_chart := some chart }
        let db := { db with plans := db.plans ++ insertRows st.user_id st.project_id plan_steps }
        let db := saveMermaidChartToProject db st.project_id chart
        let db := logAgentCall db st.project_id prompt (strOfPlanResponse plan_response)
        .ok (db, st, "AssessPlan")

/-- `EditPlan.run` (edit_plan.py lines 30-141): set status loading, call
the generative capability, log the call, parse, delete every plan row
matching this user AND project, insert steps 1..N, then update state
(rendering the chart, which can still raise), save the chart, route to
AssessPlan. -/
def editPlanRun (db : Db) (st : WFState) (gen : Except String PlanResponse) :
    Except (String × Db) (Db × WFState × String) :=
  let db := updateProjectStatus db st.project_id "loading"
  let prompt := editPrompt st
  match gen with
  | .error e => .error (e, db)
  | .ok improved_plan =>
    let db := logAgentCall db st.project_id prompt (strOfPlanResponse improved_plan)
    match parsePlanIntoSteps improved_plan.plan with
    | .error e => .error (e, db)
    | .ok improved_plan_steps =>
      let remaining := db.plans.filter (fun r =>
        !(r.user_id == st.user_id && r.project_id == st.project_id))
      let db := { db with plans :=
        remaining ++ insertRows st.user_id st.project_id improved_plan_steps }
      match generatePlanMermaidChart improved_plan_steps with
      | .error e => .error (e, db)
      | .ok chart =>
        let st := { st with
          current_plan := some improved_plan.plan,
          mermaid_chart := some chart,
          plan_needs_improvement := false,
          followup_question := none,
          user_response := none }
        let db := saveMermaidChartToProject db st.project_id chart
        .ok (db, st, "AssessPlan")

/-! ## `run_execute_plan_step` (execute_plan_step.py lines 16-59) -/

/-- The state fields the execute stage touches. -/
structure ExecState where
  project_id : Nat
  current_step_id : Option Nat
  execution_path : List Nat
  followup_question : Option String
deriving DecidableEq, Repr

structure ExecPayload where
  status : String
  message : String
deriving DecidableEq, Repr

inductive ExecRoute
  | executePlanStep
  | waitForUserInput
  | endRoute (payload : ExecPayload)
deriving DecidableEq, Repr

/-- One invocation of `run_execute_plan_step`. -/
def runExecutePlanStep (db : Db) (st0 : ExecState) : Db × ExecState × ExecRoute :=
  let st := match st0.current_step_id with
    | none => { st0 with current_step_id := some 1, execution_path := [1] }
    | some _ => st0
  let cur := st.current_step_id.getD 1
  match getNextExecutionSteps db st.project_id cur with
  | [] =>
    (updateProjectStatus db st.project_id "completed", st,
      ExecRoute.endRoute ⟨"completed", "Plan execution completed"⟩)
  | next_step :: _ =>
    if next_step.connection_type == "conditional" then
      let fq := "Decision required at step " ++ natToStr next_step.step_id ++ ": " ++
        next_step.text
      (db, { st with followup_question := some fq }, ExecRoute.waitForUserInput)
    else
      let db := logAgentCall db st.project_id
        ("Executing step " ++ natToStr next_step.step_id)
        ("Step executed: " ++ next_step.text)
      let st := { st with current_step_id := some next_step.step_id,
                          execution_path := st.execution_path ++ [next_step.step_id] }
      if st.execution_path.length > 100 then
        (updateProjectStatus db st.project_id "failed", st,
          ExecRoute.endRoute
            ⟨"failed", "Execution limit exceeded - possible infinite loop detected"⟩)
      else
        (db, st, ExecRoute.executePlanStep)

/-- Repeated `ExecutePlanStep` transitions, as the orchestrator graph
would drive them: keep re-entering the stage while it routes to itself,
stop at a pause or `End` (returned as `some route`), or after `n` calls. -/
def execIterate : Db → ExecState → Nat → Db × ExecState × Option ExecRoute
  | db, st, 0 => (db, st, none)
  | db, st, n + 1 =>
    match runExecutePlanStep db st with
    | (db', st', ExecRoute.executePlanStep) => execIterate db' st' n
    | (db', st', r) => (db', st', some r)

/-! ## Orchestrator entry point (workflow_agent.py lines 36-77) -/

/-- The fresh `WorkflowState` built by `WorkflowAgent.resume_workflow`
before starting the graph at `WaitForUserInput`: only `user_response`
is populated beyond the identifiers and chat history. -/
def resumeState (user_id project_id : Nat) (chat_history : List (String × String))
    (user_response : String) : WFState :=
  { user_id := user_id
    project_id := project_id
    chat_history := chat_history
    current_plan := none
    mermaid_chart := none
    plan_needs_improvement := false
    followup_question := none
    user_response := some user_response
    final_plan := none }

/-- `response.startswith("Error:")`, the classifier used by
`WorkflowAgent.get_agent_call_summary` (workflow_agent.py lines 264-269). -/
def isErrorCall (call : AgentCallRow) : Bool := pyStartsWith call.response "Error:"

/-- The `(total_calls, successful_calls, failed_calls)` statistics of
`get_agent_call_summary`. -/
def agentCallSummaryCounts (db : Db) (project_id : Nat) : Nat × Nat × Nat :=
  let agent_calls := db.agentCalls.filter (fun c => c.project_id == project_id)
  let total_calls := agent_calls.length
  let successful_calls := (agent_calls.filter (fun c => !isErrorCall c)).length
  (total_calls, successful_calls, total_calls - successful_calls)

/-! ## Helper lemmas -/

/-- Per-claim result helper: a property of the store after a stage run,
trivially true when the stage raised. -/
def onOkRun (x : Except (String × Db) (Db × WFState × α)) (P : Db → Prop) : Prop :=
  match x with
  | .ok (db, _, _) => P db
  | .error _ => True

/-- The store a stage left behind, whether it returned or raised. -/
def stageDb : Except (String × Db) (Db × WFState × α) → Db
  | .error (_, d) => d
  | .ok (d, _, _) => d

theorem mem_fillDefaults_of_mem {c : ConnRec} {conns : List ConnRec} {is : List Nat}
    (h : c ∈ conns) : c ∈ fillDefaults conns is := by
  induction is generalizing conns with
  | nil => exact h
  | cons i is ih =>
    unfold fillDefaults
    split
    · exact ih h
    · exact ih (List.mem_append_left _ h)

theorem fillDefaults_covers {conns : List ConnRec} {is : List Nat} {i : Nat}
    (h : i ∈ is) : ∃ c ∈ fillDefaults conns is, c.source = i := by
  induction is generalizing conns with
  | nil => cases h
  | cons j js ih =>
    rcases List.mem_cons.mp h with rfl | hmem
    · unfold fillDefaults
      split
      · next hany =>
        rcases List.any_eq_true.mp hany with ⟨c, hc, hsrc⟩
        exact ⟨c, mem_fillDefaults_of_mem hc, by simpa using hsrc⟩
      · exact ⟨defaultConn i, mem_fillDefaults_of_mem (List.mem_append_right _ (by simp)), rfl⟩
    · unfold fillDefaults
      exact ih hmem

theorem fillDefaults_mem_cases {c : ConnRec} {conns : List ConnRec} {is : List Nat}
    (h : c ∈ fillDefaults conns is) : c ∈ conns ∨ ∃ i ∈ is, c = defaultConn i := by
  induction is generalizing conns with
  | nil => exact Or.inl h
  | cons j js ih =>
    unfold fillDefaults at h
    split at h
    · rcases ih h with hc | ⟨i, hi, rfl⟩
      · exact Or.inl hc
      · exact Or.inr ⟨i, List.mem_cons_of_mem _ hi, rfl⟩
    · rcases ih h with hc | ⟨i, hi, rfl⟩
      · rcases List.mem_append.mp hc with hc | hc
        · exact Or.inl hc
        · simp only [List.mem_singleton] at hc
          exact Or.inr ⟨j, List.mem_cons_self _ _, hc⟩
      · exact Or.inr ⟨i, List.mem_cons_of_mem _ hi, rfl⟩

theorem mem_cueConnections {c : ConnRec} {lines : List String}
    (h : c ∈ cueConnections lines) :
    ∃ i, i < lines.length ∧ c ∈ lineConnections lines i := by
  unfold cueConnections at h
  rcases List.mem_flatMap.mp h with ⟨i, hi, hc⟩
  exact ⟨i, List.mem_range.mp hi, hc⟩

theorem lineConnections_cases {c : ConnRec} {lines : List String} {i : Nat}
    (h : c ∈ lineConnections lines i) :
    (∃ j, j ≠ i ∧ j < lines.length ∧
      c = ⟨i + 1, j + 1, "loop_back", some "loop condition", some "Loop back"⟩) ∨
    (i + 1 < lines.length ∧
      c = ⟨i + 1, i + 2, "conditional", some "condition met", some "Yes"⟩) ∨
    (i + 2 < lines.length ∧
      c = ⟨i + 1, i + 3, "conditional", some "condition not met", some "No"⟩) := by
  unfold lineConnections at h
  rcases List.mem_append.mp h with hl | hc
  · left
    split at hl
    · revert hl
      split
      · next j hfind =>
        intro hl
        simp only [List.mem_singleton] at hl
        have hmem := List.mem_of_find?_eq_some hfind
        have hp := List.find?_some hfind
        simp only [Bool.and_eq_true, decide_eq_true_eq] at hp
        exact ⟨j, hp.1, List.mem_range.mp hmem, hl⟩
      · intro hl; cases hl
    · cases hl
  · right
    split at hc
    · split at hc
      · next hlt =>
        rcases List.mem_cons.mp hc with rfl | hc'
        · exact Or.inl ⟨hlt, rfl⟩
        · split at hc'
          · next hlt2 =>
            simp only [List.mem_singleton] at hc'
            exact Or.inr ⟨hlt2, hc'⟩
          · cases hc'
      · cases hc
    · cases hc

theorem getProjectStatus_updateProjectStatus (db : Db) (p : Nat) (s : String) :
    getProjectStatus (updateProjectStatus db p s) p =
      (getProjectStatus db p).map (fun _ => s) := by
  unfold getProjectStatus updateProjectStatus
  simp only
  induction db.projects with
  | nil => rfl
  | cons r rs ih =>
    unfold setStatusFirst
    by_cases hr : r.id == p
    · simp [List.find?, hr]
    · simp only [hr, Bool.false_eq_true, if_false, List.find?]
      simpa [hr] using ih

theorem insertRows_filter_map (uid pid : Nat) (steps : List String) (n : Nat) :
    (((enumFrom n steps).map (fun p => (⟨0, uid, pid, p.1, p.2⟩ : PlanRow))).filter
        (fun r => r.project_id == pid)).map (fun r => r.step_id) =
      List.range' n steps.length := by
  induction steps generalizing n with
  | nil => rfl
  | cons s ss ih =>
    simp only [enumFrom, List.map_cons, List.filter_cons, List.length_cons,
      List.range'_succ]
    simp only [beq_self_eq_true, if_true, List.map_cons, ih]

theorem stepIdsFor_insertRows (uid pid : Nat) (steps : List String) :
    ((insertRows uid pid steps).filter (fun r => r.project_id == pid)).map
        (fun r => r.step_id) = List.range' 1 steps.length :=
  insertRows_filter_map uid pid steps 1

theorem getProjectStatus_logAgentCall (db : Db) (p q : Nat) (a b : String) :
    getProjectStatus (logAgentCall db p a b) q = getProjectStatus db q := rfl

/-! ## Lemmas about `run_execute_plan_step` -/

def loopGuardPayload : ExecPayload :=
  ⟨"failed", "Execution limit exceeded - possible infinite loop detected"⟩

theorem runExecutePlanStep_path_bound (db : Db) (st : ExecState)
    (h : st.execution_path.length ≤ 100) :
    ((runExecutePlanStep db st).2.2 = ExecRoute.executePlanStep →
      (runExecutePlanStep db st).2.1.execution_path.length ≤ 100) ∧
    (runExecutePlanStep db st).2.1.execution_path.length ≤ 101 ∧
    ((runExecutePlanStep db st).2.1.execution_path.length > 100 →
      (runExecutePlanStep db st).2.2 = ExecRoute.endRoute loopGuardPayload ∧
      getProjectStatus (runExecutePlanStep db st).1 st.project_id =
        (getProjectStatus db st.project_id).map (fun _ => "failed")) := by
  unfold runExecutePlanStep
  rcases hcur : st.current_step_id with _ | c
  all_goals
    simp only
    split
  case _ =>
    refine ⟨(fun hr => by cases hr), (by simp), fun hgt => ?_⟩
    simp at hgt
  case _ h1 next_step rest hns =>
    split
    · refine ⟨(fun hr => by cases hr), (by simp), fun hgt => ?_⟩
      simp at hgt
    · split
      · next hguard =>
        simp only [List.length_append, List.length_singleton] at hguard ⊢
        refine ⟨(fun hr => by cases hr), (by omega), fun _ => ?_⟩
        refine ⟨rfl, ?_⟩
        rw [getProjectStatus_updateProjectStatus, getProjectStatus_logAgentCall]
      · next hguard =>
        simp only [List.length_append, List.length_singleton] at hguard ⊢
        exact ⟨(fun _ => by omega), (by omega), fun hgt => absurd hgt (by omega)⟩
  case _ =>
    refine ⟨(fun hr => by cases hr), (by dsimp only; omega), fun hgt => ?_⟩
    dsimp only at hgt
    omega
  case _ h1 next_step rest hns =>
    split
    · refine ⟨(fun hr => by cases hr), (by dsimp only; omega), fun hgt => ?_⟩
      dsimp only at hgt
      omega
    · split
      · next hguard =>
        simp only [List.length_append, List.length_singleton] at hguard ⊢
        refine ⟨(fun hr => by cases hr), (by omega), fun _ => ?_⟩
        refine ⟨rfl, ?_⟩
        rw [getProjectStatus_updateProjectStatus, getProjectStatus_logAgentCall]
      · next hguard =>
        simp only [List.length_append, List.length_singleton] at hguard ⊢
        exact ⟨(fun _ => by omega), (by omega), fun hgt => absurd hgt (by omega)⟩

theorem execIterate_path_bound (db : Db) (st : ExecState) (n : Nat)
    (h : st.execution_path.length ≤ 100) :
    (execIterate db st n).2.1.execution_path.length ≤ 101 := by
  induction n generalizing db st with
  | zero => exact Nat.le_succ_of_le h
  | succ n ih =>
    have hb := runExecutePlanStep_path_bound db st h
    unfold execIterate
    rcases hstep : runExecutePlanStep db st with ⟨db', st', r⟩
    rw [hstep] at hb
    cases r with
    | executePlanStep => exact ih db' st' (hb.1 rfl)
    | waitForUserInput => exact hb.2.1
    | endRoute p => exact hb.2.1

/-- Decidable equality for `Except`, used by closed evaluations. -/
instance {ε : Type u} {α : Type v} [DecidableEq ε] [DecidableEq α] :
    DecidableEq (Except ε α) := fun x y =>
  match x, y with
  | .error a, .error b =>
    if h : a = b then .isTrue (by rw [h]) else .isFalse (fun hc => by cases hc; exact h rfl)
  | .ok a, .ok b =>
    if h : a = b then .isTrue (by rw [h]) else .isFalse (fun hc => by cases hc; exact h rfl)
  | .error _, .ok _ => .isFalse (fun hc => by cases hc)
  | .ok _, .error _ => .isFalse (fun hc => by cases hc)

/-! ## Concrete fixtures used by closed theorems -/

/-- A store with one project in the initial `loading` state. -/
def sampleDb : Db := ⟨[], [], [], [⟨1, "loading", none⟩]⟩

/-- A workflow state as it stands when `AssessPlan` runs: plan and chart
are populated by the preceding `CreatePlan`. -/
def sampleState : WFState :=
  { user_id := 1
    project_id := 1
    chat_history := [("user", "build a data pipeline")]
    current_plan := some "1. A: a\n2. B: b"
    mermaid_chart := some "flowchart TD"
    plan_needs_improvement := false
    followup_question := none
    user_response := none
    final_plan := none }

/-- An assessment response carrying the completion marker. -/
def planCompleteResponse : String := "The plan looks complete. PLAN_COMPLETE."

/-- A store that already holds a plan row for project 1 before
`CreatePlan` runs again. -/
def preexistingDb : Db := ⟨[⟨7, 1, 1, 1, "old step"⟩], [], [], [⟨1, "loading", none⟩]⟩

/-- A generative response whose plan parses into two steps. -/
def twoStepPlanResponse : PlanResponse := ⟨"1. A: a\n2. B: b", [], "flowchart TD"⟩

/-- A store whose connection graph has an unconditional self-loop on
step 1 of project 1. -/
def dbWithCycle : Db :=
  ⟨[⟨10, 1, 1, 1, "Loop step"⟩], [⟨1, 10, 10, "next", none, some "Next"⟩], [],
    [⟨1, "processing", none⟩]⟩

/-- The fresh execution state on first entry (`current_step_id` unset). -/
def execInitState : ExecState := ⟨1, none, [], none⟩

/-- Plan text whose loop-back cue names a phrase that only occurs on a
later line. -/
def loopForwardText : String := "start here\nloop back to cleanup\ncleanup data"

/-- Plan text whose loop-back cue points to an earlier line. -/
def loopBackText : String := "transform data\nloop back to transform"

/-! ## Claims -/

/-- Claim C1: for a `resume` call, a `user_response` that is empty or
whitespace-only after trimming makes `WaitForUserInput` take the pause
branch — project status is set to `needs_input` and the node ends with
the `waiting_for_input` payload carrying the state's followup question —
while a response that is non-empty after trimming sets status
`processing`, appends the transition-marker log record, and routes to
`EditPlan`. -/
theorem claim_C1_wait_for_user_input_routing (db : Db) (uid pid : Nat)
    (ch : List (String × String)) (ur : String) :
    (pyStrip ur = "" →
      waitForUserInput db (resumeState uid pid ch ur) =
        (updateProjectStatus db pid "needs_input", resumeState uid pid ch ur,
          WaitRoute.endRoute
            ⟨"waiting_for_input", (resumeState uid pid ch ur).followup_question,
              "Please provide additional information to continue", true⟩)) ∧
    (pyStrip ur ≠ "" →
      (waitForUserInput db (resumeState uid pid ch ur)).2.2 = WaitRoute.editPlan ∧
      getProjectStatus (waitForUserInput db (resumeState uid pid ch ur)).1 pid =
        (getProjectStatus db pid).map (fun _ => "processing") ∧
      (waitForUserInput db (resumeState uid pid ch ur)).1.agentCalls =
        db.agentCalls ++ [⟨pid, "WaitForUserInput: User response received",
          "Proceeding to EditPlan with user response: " ++ pyTake 100 ur ++ "..."⟩]) := by
  constructor
  · intro hempty
    have ht : userResponseTruthy (resumeState uid pid ch ur).user_response = false := by
      simp only [resumeState, userResponseTruthy]
      by_cases h0 : ur == ""
      · simp [h0]
      · simp [h0, hempty]
    unfold waitForUserInput
    rw [ht]
    rfl
  · intro hne
    have ht : userResponseTruthy (resumeState uid pid ch ur).user_response = true := by
      simp only [resumeState, userResponseTruthy]
      have h0 : (ur == "") = false := by
        cases h0 : ur == ""
        · rfl
        · exact absurd (by rw [show ur = "" from by simpa using h0]; rfl) hne
      simp [h0, hne]
    unfold waitForUserInput
    rw [ht]
    refine ⟨rfl, ?_, rfl⟩
    show getProjectStatus
      (logAgentCall (updateProjectStatus db pid "processing") pid _ _) pid = _
    rw [getProjectStatus_logAgentCall]
    exact getProjectStatus_updateProjectStatus db pid "processing"

/-- Claim C1 witness: the theorem applied at a whitespace-only response
and at a non-empty response. -/
theorem claim_C1_witness :
    (waitForUserInput sampleDb (resumeState 1 1 [] "   ") =
      (updateProjectStatus sampleDb 1 "needs_input", resumeState 1 1 [] "   ",
        WaitRoute.endRoute
          ⟨"waiting_for_input", (resumeState 1 1 [] "   ").followup_question,
            "Please provide additional information to continue", true⟩)) ∧
    ((waitForUserInput sampleDb (resumeState 1 1 [] "Use Postgres")).2.2 =
        WaitRoute.editPlan ∧
      getProjectStatus (waitForUserInput sampleDb (resumeState 1 1 [] "Use Postgres")).1 1 =
        (getProjectStatus sampleDb 1).map (fun _ => "processing") ∧
      (waitForUserInput sampleDb (resumeState 1 1 [] "Use Postgres")).1.agentCalls =
        sampleDb.agentCalls ++ [⟨1, "WaitForUserInput: User response received",
          "Proceeding to EditPlan with user response: " ++ pyTake 100 "Use Postgres" ++
            "..."⟩]) :=
  ⟨(claim_C1_wait_for_user_input_routing sampleDb 1 1 [] "   ").1 (by decide),
    (claim_C1_wait_for_user_input_routing sampleDb 1 1 [] "Use Postgres").2 (by decide)⟩

/-- Claim C2 (code bug): on an assessment containing the PLAN_COMPLETE
marker, `AssessPlan.run` constructs `PlanResponse(plan=..., mermaid_chart=...)`
without the required `connections` field, so pydantic raises a
`ValidationError` before the project status is ever set to `completed`:
the stage raises instead of assembling the final output and ending the
workflow.  The assessment call is still logged (the log precedes the
marker check) and the project status is left at its prior value. -/
theorem claim_C2_plan_complete_marker_raises :
    assessPlan sampleDb sampleState (.ok planCompleteResponse) =
      .error ("ValidationError: Field required",
        logAgentCall sampleDb 1 (assessPrompt sampleState) planCompleteResponse) ∧
    getProjectStatus
        (logAgentCall sampleDb 1 (assessPrompt sampleState) planCompleteResponse) 1 =
      some "loading" :=
  ⟨rfl, rfl⟩

/-- Claim C6 counterexample: the sequential renderer
`_generate_plan_mermaid_chart` raises `ValueError` on zero steps instead
of returning a diagram string. -/
theorem claim_C6_counterexample :
    generatePlanMermaidChart [] =
      Except.error
        "No steps parsed. Make sure lines look like \x271. Title: description\x27." :=
  rfl

/-- Claim C6 (amended): the connection-aware renderer
`_generate_plan_mermaid_chart_with_connections` is total; on zero steps
it returns, for any connection list, the single-placeholder diagram with
no edges, while the sequential renderer `_generate_plan_mermaid_chart`
raises a `ValueError` on zero steps. -/
theorem claim_C6_amended :
    (∀ connections, generatePlanMermaidChartWithConnections [] connections =
      "flowchart TD\n    A[No Plan Available]") ∧
    substrOf "->" "flowchart TD\n    A[No Plan Available]" = false ∧
    generatePlanMermaidChart [] =
      Except.error
        "No steps parsed. Make sure lines look like \x271. Title: description\x27." :=
  ⟨fun _ => rfl, by decide, rfl⟩

/-- Claim C7 (code bug): `_parse_plan_into_steps` evaluates `line[1]`
whenever `line[0]` is a digit, so a line consisting of a single digit
raises `IndexError` instead of parsing. -/
theorem claim_C7_single_digit_line_raises :
    parsePlanIntoSteps "1. Gather data\n5" =
      Except.error "IndexError: string index out of range" := by
  decide

/-- Claim C3 counterexample: running `CreatePlan` while a plan row for
the project already exists leaves step ids `[1, 1, 2]` — a duplicate —
because `CreatePlan` inserts without deleting. -/
theorem claim_C3_counterexample :
    stepIdsFor (stageDb (createPlanRun preexistingDb sampleState (.ok twoStepPlanResponse)))
        1 = [1, 1, 2] ∧
    ¬ List.Nodup [1, 1, 2] :=
  ⟨by decide, by decide⟩

/-- Claim C3 (amended): after a successful `CreatePlan` the persisted
step ids for the project are exactly `1..N` (N the parsed step count)
provided no rows for the project pre-existed, since `CreatePlan` only
inserts; after a successful `EditPlan` the same holds provided every
pre-existing row of the project belongs to the acting user, since
`EditPlan` deletes only rows matching both user and project. -/
theorem claim_C3_dense_numbering_amended (db : Db) (st : WFState) (pr : PlanResponse) :
    (stepIdsFor db st.project_id = [] →
      onOkRun (createPlanRun db st (.ok pr)) (fun db2 => ∃ steps,
        parsePlanIntoSteps pr.plan = .ok steps ∧
        stepIdsFor db2 st.project_id = List.range' 1 steps.length)) ∧
    ((∀ r ∈ db.plans, r.project_id = st.project_id → r.user_id = st.user_id) →
      onOkRun (editPlanRun db st (.ok pr)) (fun db2 => ∃ steps,
        parsePlanIntoSteps pr.plan = .ok steps ∧
        stepIdsFor db2 st.project_id = List.range' 1 steps.length)) := by
  constructor
  · intro hpre
    have h1 : db.plans.filter (fun r => r.project_id == st.project_id) = [] :=
      List.map_eq_nil_iff.mp hpre
    simp only [createPlanRun]
    cases hp : parsePlanIntoSteps pr.plan with
    | error e => simp [onOkRun, hp]
    | ok steps =>
      cases hchart : generatePlanMermaidChart steps with
      | error e => simp [onOkRun, hp, hchart]
      | ok chart =>
        simp only [onOkRun, hp, hchart]
        refine ⟨steps, rfl, ?_⟩
        show ((db.plans ++ insertRows st.user_id st.project_id steps).filter
            (fun r => r.project_id == st.project_id)).map (fun r => r.step_id) = _
        rw [List.filter_append, h1, List.nil_append, stepIdsFor_insertRows]
  · intro hall
    have h2 : (db.plans.filter (fun r =>
        !(r.user_id == st.user_id && r.project_id == st.project_id))).filter
          (fun r => r.project_id == st.project_id) = [] := by
      rw [List.filter_eq_nil_iff]
      intro r hr hP
      rcases List.mem_filter.mp hr with ⟨hmem, hq⟩
      have hproj : r.project_id = st.project_id := by simpa using hP
      have huser : r.user_id = st.user_id := hall r hmem hproj
      simp [huser, hproj] at hq
    simp only [editPlanRun]
    cases hp : parsePlanIntoSteps pr.plan with
    | error e => simp [onOkRun, hp]
    | ok steps =>
      cases hchart : generatePlanMermaidChart steps with
      | error e => simp [onOkRun, hp, hchart]
      | ok chart =>
        simp only [onOkRun, hp, hchart]
        refine ⟨steps, rfl, ?_⟩
        show (((db.plans.filter (fun r =>
            !(r.user_id == st.user_id && r.project_id == st.project_id))) ++
              insertRows st.user_id st.project_id steps).filter
            (fun r => r.project_id == st.project_id)).map (fun r => r.step_id) = _
        rw [List.filter_append, h2, List.nil_append, stepIdsFor_insertRows]

/-- Claim C3 witness: the amended theorem applied to an empty store for
`CreatePlan` and to a store owned by the acting user for `EditPlan`. -/
theorem claim_C3_witness :
    (stepIdsFor sampleDb 1 = [] ∧
      onOkRun (createPlanRun sampleDb sampleState (.ok twoStepPlanResponse))
        (fun db2 => ∃ steps,
          parsePlanIntoSteps twoStepPlanResponse.plan = .ok steps ∧
          stepIdsFor db2 1 = List.range' 1 steps.length)) ∧
    ((∀ r ∈ preexistingDb.plans, r.project_id = 1 → r.user_id = 1) ∧
      onOkRun (editPlanRun preexistingDb sampleState (.ok twoStepPlanResponse))
        (fun db2 => ∃ steps,
          parsePlanIntoSteps twoStepPlanResponse.plan = .ok steps ∧
          stepIdsFor db2 1 = List.range' 1 steps.length)) :=
  ⟨⟨by decide,
      (claim_C3_dense_numbering_amended sampleDb sampleState twoStepPlanResponse).1
        (by decide)⟩,
    ⟨by decide,
      (claim_C3_dense_numbering_amended preexistingDb sampleState twoStepPlanResponse).2
        (by decide)⟩⟩

/-- Claim C4 counterexample: with an unconditional self-loop the
execution path reaches length 101 — exceeding 100 — before the loop
guard ends the run (the guard fires only after appending). -/
theorem claim_C4_counterexample :
    (execIterate dbWithCycle execInitState 101).2.1.execution_path.length = 101 ∧
    (execIterate dbWithCycle execInitState 101).2.2 =
      some (ExecRoute.endRoute loopGuardPayload) :=
  ⟨by decide, by decide⟩

/-- Claim C4 (amended): starting from any state whose path has at most
100 entries, repeated `ExecutePlanStep` transitions never let the
execution path exceed 101 entries (it reaches 101 exactly when the guard
fires), and whenever a single transition leaves the path longer than
100, that transition returned the terminal failure payload and set the
project status to `failed`. -/
theorem claim_C4_loop_guard_amended (db : Db) (st : ExecState) (n : Nat)
    (h : st.execution_path.length ≤ 100) :
    (execIterate db st n).2.1.execution_path.length ≤ 101 ∧
    ((runExecutePlanStep db st).2.1.execution_path.length > 100 →
      (runExecutePlanStep db st).2.2 = ExecRoute.endRoute loopGuardPayload ∧
      getProjectStatus (runExecutePlanStep db st).1 st.project_id =
        (getProjectStatus db st.project_id).map (fun _ => "failed")) :=
  ⟨execIterate_path_bound db st n h, (runExecutePlanStep_path_bound db st h).2.2⟩

/-- Claim C4 witness: the amended theorem applied to the self-loop store
at the fresh execution state. -/
theorem claim_C4_witness :
    (execIterate dbWithCycle execInitState 101).2.1.execution_path.length ≤ 101 ∧
    ((runExecutePlanStep dbWithCycle execInitState).2.1.execution_path.length > 100 →
      (runExecutePlanStep dbWithCycle execInitState).2.2 =
        ExecRoute.endRoute loopGuardPayload ∧
      getProjectStatus (runExecutePlanStep dbWithCycle execInitState).1 1 =
        (getProjectStatus dbWithCycle 1).map (fun _ => "failed")) :=
  claim_C4_loop_guard_amended dbWithCycle execInitState 101 (by decide)

/-- Claim C5 counterexample: when the generative call of `CreatePlan`
raises, the exception propagates with the store unchanged apart from the
`loading` status — zero `AgentCall` rows are appended, not one, and no
`Error:`-prefixed response is written. -/
theorem claim_C5_counterexample :
    createPlanRun sampleDb sampleState (.error "Exception: model unavailable") =
      .error ("Exception: model unavailable", updateProjectStatus sampleDb 1 "loading") ∧
    (updateProjectStatus sampleDb 1 "loading").agentCalls.length = 0 :=
  ⟨rfl, rfl⟩

/-- Claim C5 (amended): each stage appends exactly one `AgentCall` when
its generative call succeeds (for `CreatePlan`, provided the subsequent
parse and render also succeed, since it logs last; `AssessPlan` and
`EditPlan` log immediately after the call, so their record persists even
when a later step raises); when the generative call itself raises, the
exception propagates and no `AgentCall` is appended.  The summary code
classifies a call as failed exactly when its response starts with
`Error:`, but no stage ever writes such a response. -/
theorem claim_C5_agent_call_logging (db : Db) (st : WFState) (e : String)
    (pr : PlanResponse) (assessment : String) :
    (createPlanRun db st (.error e) =
      .error (e, updateProjectStatus db st.project_id "loading")) ∧
    (onOkRun (createPlanRun db st (.ok pr)) (fun db2 =>
      db2.agentCalls = db.agentCalls ++
        [⟨st.project_id, createPrompt st, strOfPlanResponse pr⟩])) ∧
    (assessPlan db st (.error e) = .error (e, db)) ∧
    ((stageDb (assessPlan db st (.ok assessment))).agentCalls = db.agentCalls ++
      [⟨st.project_id, assessPrompt st, assessment⟩]) ∧
    (editPlanRun db st (.error e) =
      .error (e, updateProjectStatus db st.project_id "loading")) ∧
    ((stageDb (editPlanRun db st (.ok pr))).agentCalls = db.agentCalls ++
      [⟨st.project_id, editPrompt st, strOfPlanResponse pr⟩]) ∧
    (∀ call, isErrorCall call = pyStartsWith call.response "Error:") := by
  refine ⟨rfl, ?_, rfl, ?_, rfl, ?_, fun _ => rfl⟩
  · simp only [createPlanRun]
    cases hp : parsePlanIntoSteps pr.plan with
    | error e => simp [onOkRun, hp]
    | ok steps =>
      cases hchart : generatePlanMermaidChart steps with
      | error e => simp [onOkRun, hp, hchart]
      | ok chart => simp [onOkRun, hp, hchart, logAgentCall, saveMermaidChartToProject, updateProjectStatus]
  · simp only [assessPlan]
    by_cases hm : substrOf "PLAN_COMPLETE" (pyUpper assessment) = true
    · simp only [hm, if_true]
      cases hv : PlanResponse.validate st.current_plan none st.mermaid_chart with
      | error e2 => rfl
      | ok fp => rfl
    · simp only [Bool.not_eq_true] at hm
      simp only [hm, Bool.false_eq_true, if_false]
      rfl
  · simp only [editPlanRun]
    cases hp : parsePlanIntoSteps pr.plan with
    | error e2 => simp [stageDb, hp, logAgentCall, updateProjectStatus]
    | ok steps =>
      cases hchart : generatePlanMermaidChart steps with
      | error e2 => simp [stageDb, hp, hchart, logAgentCall, updateProjectStatus]
      | ok chart =>
        simp [stageDb, hp, hchart, logAgentCall, updateProjectStatus,
          saveMermaidChartToProject]

/-- Claim C8: after `_parse_connections_from_plan` runs on any text with
N non-blank lines, every line index `i` in `1..N-1` has at least one
connection whose source equals `i` — either a cue-derived edge or the
default `next` edge the trailing loop appends. -/
theorem claim_C8_connection_fallback_completeness (plan_text : String) (i : Nat)
    (h1 : 1 ≤ i) (h2 : i + 1 ≤ (planLines plan_text).length) :
    ∃ c ∈ parseConnectionsFromPlan plan_text, c.source = i := by
  unfold parseConnectionsFromPlan
  exact fillDefaults_covers (List.mem_range'_1.mpr ⟨h1, by omega⟩)

/-- Claim C8 witness: the theorem applied to a three-line plan at
index 1. -/
theorem claim_C8_witness :
    (1 ≤ 1 ∧ 1 + 1 ≤ (planLines "a plan line\nanother line\nlast line").length) ∧
    ∃ c ∈ parseConnectionsFromPlan "a plan line\nanother line\nlast line",
      c.source = 1 :=
  ⟨⟨by decide, by decide⟩,
    claim_C8_connection_fallback_completeness "a plan line\nanother line\nlast line" 1
      (by decide) (by decide)⟩

/-- Claim C9 counterexample: the loop-back scan searches all lines for
the target phrase, so when the phrase only occurs on a later line the
emitted `loop_back` edge points forward: source 2, target 3, violating
`source > target`. -/
theorem claim_C9_counterexample :
    (⟨2, 3, "loop_back", some "loop condition", some "Loop back"⟩ : ConnRec) ∈
      parseConnectionsFromPlan loopForwardText ∧
    ¬ ((2 : Nat) > 3) :=
  ⟨by decide, by decide⟩

/-- Claim C9 (amended): every `loop_back` connection emitted by
`_parse_connections_from_plan` satisfies `source ≠ target` — its target
is the first *other* line containing a word of the loop phrase, which
may lie before or after the source, so `source > target` does not hold
in general. -/
theorem claim_C9_loop_back_amended (plan_text : String) (c : ConnRec)
    (hc : c ∈ parseConnectionsFromPlan plan_text) (ht : c.type = "loop_back") :
    c.source ≠ c.target := by
  unfold parseConnectionsFromPlan at hc
  rcases fillDefaults_mem_cases hc with hcue | ⟨i, _, rfl⟩
  · rcases mem_cueConnections hcue with ⟨i, _, hline⟩
    rcases lineConnections_cases hline with ⟨j, hji, _, rfl⟩ | ⟨_, rfl⟩ | ⟨_, rfl⟩
    · simp only [ne_eq]
      intro hst
      exact hji (by omega)
    · simp at ht
    · simp at ht
  · simp [defaultConn] at ht

/-- Claim C9 witness: the amended theorem applied to a plan whose
loop-back edge does point backward. -/
theorem claim_C9_witness :
    ((⟨2, 1, "loop_back", some "loop condition", some "Loop back"⟩ : ConnRec) ∈
      parseConnectionsFromPlan loopBackText) ∧
    (⟨2, 1, "loop_back", some "loop condition", some "Loop back"⟩ : ConnRec).source ≠
      (⟨2, 1, "loop_back", some "loop condition", some "Loop back"⟩ : ConnRec).target :=
  ⟨by decide,
    claim_C9_loop_back_amended loopBackText
      ⟨2, 1, "loop_back", some "loop condition", some "Loop back"⟩ (by decide) rfl⟩

/-- Claim C10: every connection emitted by `_parse_connections_from_plan`
refers to existing lines — both source and target lie in `1..N` where N
is the number of non-blank lines: conditional edges are emitted only
when their targets exist, loop-back targets come from the line scan, and
default `next` edges stop at the last line. -/
theorem claim_C10_connection_bounds (plan_text : String) (c : ConnRec)
    (hc : c ∈ parseConnectionsFromPlan plan_text) :
    1 ≤ c.source ∧ c.source ≤ (planLines plan_text).length ∧
    1 ≤ c.target ∧ c.target ≤ (planLines plan_text).length := by
  unfold parseConnectionsFromPlan at hc
  rcases fillDefaults_mem_cases hc with hcue | ⟨i, hi, rfl⟩
  · rcases mem_cueConnections hcue with ⟨i, hiN, hline⟩
    rcases lineConnections_cases hline with ⟨j, _, hjN, rfl⟩ | ⟨hlt, rfl⟩ | ⟨hlt, rfl⟩ <;>
      refine ⟨?_, ?_, ?_, ?_⟩ <;> dsimp only <;> omega
  · have hb := List.mem_range'_1.mp hi
    refine ⟨?_, ?_, ?_, ?_⟩ <;> dsimp only [defaultConn] <;> omega

/-- Claim C10 witness: the theorem applied to the default edge of a
two-line plan. -/
theorem claim_C10_witness :
    (defaultConn 1 ∈ parseConnectionsFromPlan "a plan line\nanother line") ∧
    (1 ≤ (defaultConn 1).source ∧
      (defaultConn 1).source ≤ (planLines "a plan line\nanother line").length ∧
      1 ≤ (defaultConn 1).target ∧
      (defaultConn 1).target ≤ (planLines "a plan line\nanother line").length) :=
  ⟨by decide,
    claim_C10_connection_bounds "a plan line\nanother line" (defaultConn 1) (by decide)⟩

end Fernlabs
